import Mathlib

/-!
Verification of the trending-news pipeline of this repository (Agent.py and
AI.py) against its natural-language specification.

Strings are modelled as lists of characters.  Python string operations used
by the code (str.replace, str.split, str.join, str.strip, str.lower,
str.capitalize, slicing) are embedded below; str.lower and str.capitalize
are modelled on the ASCII letter range, which covers every keyword table and
every concrete input appearing in the claims.  The md5 fingerprint is
modelled by its input string: md5 is deterministic, so equal inputs give
equal hashes, and all claims about hashing in this spec are claims about the
hash input.
-/

/-- The Python str.split and str.strip whitespace set (characters of Unicode
category Zs, Zl, Zp or with bidirectional class WS, B, S). -/
def isPySpace (c : Char) : Bool :=
  decide ((9 ≤ c.toNat ∧ c.toNat ≤ 13) ∨ (28 ≤ c.toNat ∧ c.toNat ≤ 31) ∨
    c.toNat = 32 ∨ c.toNat = 133 ∨ c.toNat = 160 ∨ c.toNat = 5760 ∨
    (8192 ≤ c.toNat ∧ c.toNat ≤ 8202) ∨ c.toNat = 8232 ∨ c.toNat = 8233 ∨
    c.toNat = 8239 ∨ c.toNat = 8287 ∨ c.toNat = 12288)

/-- Python str.lower on one character, restricted to ASCII letters. -/
def pyLowerChar (c : Char) : Char :=
  if 65 ≤ c.toNat ∧ c.toNat ≤ 90 then Char.ofNat (c.toNat + 32) else c

/-- Python str.upper on one character, restricted to ASCII letters. -/
def pyUpperChar (c : Char) : Char :=
  if 97 ≤ c.toNat ∧ c.toNat ≤ 122 then Char.ofNat (c.toNat - 32) else c

/-- Python str.lower (ASCII range). -/
def pyLower (s : List Char) : List Char := s.map pyLowerChar

/-- Python str.capitalize (ASCII range): first character upper, rest lower. -/
def pyCapitalize : List Char → List Char
  | [] => []
  | c :: s => pyUpperChar c :: pyLower s

/-- Python str.strip() with no argument: drop leading and trailing whitespace. -/
def pyStrip (s : List Char) : List Char :=
  ((s.dropWhile isPySpace).reverse.dropWhile isPySpace).reverse

/-- Worker for pySplit: accumulates the current word in reverse. -/
def pySplitAux : List Char → List Char → List (List Char)
  | [], acc => if acc.isEmpty then [] else [acc.reverse]
  | c :: s, acc =>
    if isPySpace c then
      if acc.isEmpty then pySplitAux s [] else acc.reverse :: pySplitAux s []
    else pySplitAux s (c :: acc)

/-- Python str.split() with no argument: split on whitespace runs, dropping
empty fields. -/
def pySplit (s : List Char) : List (List Char) := pySplitAux s []

/-- Worker for pyReplace, structurally recursive on a fuel that starts at the
length of the string (the fuel never runs out for that choice, and each step
consumes at least one character). -/
def pyReplaceF (pat rep : List Char) : Nat → List Char → List Char
  | _, [] => []
  | 0, s => s
  | fuel + 1, c :: s =>
    if pat.isPrefixOf (c :: s) && !pat.isEmpty then
      rep ++ pyReplaceF pat rep fuel (s.drop (pat.length - 1))
    else
      c :: pyReplaceF pat rep fuel s

/-- Python str.replace(pat, rep): replace every non-overlapping occurrence of
pat, scanning left to right (pat nonempty in every use below). -/
def pyReplace (pat rep s : List Char) : List Char := pyReplaceF pat rep s.length s

/-- The character class removed by the re.sub in clean_text_for_db
(Agent.py:223): ranges 00-08, 0b, 0c, 0e-1f and 7f. -/
def isCtrlRegex (c : Char) : Bool :=
  decide (c.toNat ≤ 8 ∨ c.toNat = 11 ∨ c.toNat = 12 ∨
    (14 ≤ c.toNat ∧ c.toNat ≤ 31) ∨ c.toNat = 127)

/-- The second key of the replacements dict at Agent.py:218 as the file
parses: the three consecutive single quotes open a triple-quoted string, so
the key is the seven characters colon, space, double quote, single quote,
double quote, comma, space. -/
def quoteFoldPat : List Char := [':', ' ', '"', '\'', '"', ',', ' ']

/-- clean_text_for_db (Agent.py:209-229).  The replacements dict of line 218
evaluates, after Python tokenization, to the ordered table
double-quote to double-quote, quoteFoldPat to single quote, en dash to
hyphen, em dash to hyphen, ellipsis to three dots; its duplicate first key
collapses.  The try/except never fires for string input, so it is not
modelled. -/
def clean_text_for_db (s : List Char) : List Char :=
  if s.isEmpty then [] else
  let t1 := pyReplace ['\x00'] [] s
  let t2 := pyReplace ['\x0d'] [' '] t1
  let t3 := pyReplace ['\x0a'] [' '] t2
  let t4 := pyReplace ['\x09'] [' '] t3
  let t5 := pyReplace ['"'] ['"'] t4
  let t6 := pyReplace quoteFoldPat ['\''] t5
  let t7 := pyReplace ['–'] ['-'] t6
  let t8 := pyReplace ['—'] ['-'] t7
  let t9 := pyReplace ['…'] ['.', '.', '.'] t8
  let t10 := t9.filter (fun c => !isCtrlRegex c)
  pyStrip (List.intercalate [' '] (pySplit t10))

/-! ## News store (SimpleNewsDB, Agent.py:26-198)

Python truthiness on strings is emptiness, so the field defaults of
save_news (Agent.py:135-139) fire exactly on the empty string. -/

/-- Title field preparation of save_news (Agent.py:135). -/
def clean_title_field (t : List Char) : List Char :=
  if t.isEmpty then "AI News Article".data else (clean_text_for_db t).take 500

/-- Url field preparation of save_news (Agent.py:136). -/
def clean_url_field (u : List Char) : List Char :=
  if u.isEmpty then "https://unknown-source.com".data else (clean_text_for_db u).take 1000

/-- Content field preparation of save_news (Agent.py:137). -/
def clean_content_field (c : List Char) : List Char :=
  if c.isEmpty then [] else (clean_text_for_db c).take 5000

/-- Summary field preparation of save_news (Agent.py:138). -/
def clean_summary_field (s : List Char) : List Char :=
  if s.isEmpty then "AI technology news update.".data else (clean_text_for_db s).take 500

/-- Source field preparation of save_news (Agent.py:139). -/
def clean_source_field (s : List Char) : List Char :=
  if s.isEmpty then "Unknown Source".data else (clean_text_for_db s).take 200

/-- The md5 input built by save_news (Agent.py:141-144): cleaned title
(lowered, stripped) concatenated with the content snippet (lowered,
stripped), where the snippet is the first 200 characters of the cleaned
content, defaulting to the cleaned title when the cleaned content is
empty. -/
def save_hash_input (t c : List Char) : List Char :=
  let ct := clean_title_field t
  let cc := clean_content_field c
  let snippet := if cc.isEmpty then ct else cc.take 200
  pyStrip (pyLower ct) ++ pyStrip (pyLower snippet)

/-- The md5 input built by is_duplicate (Agent.py:113-116): raw title
(lowered, stripped) concatenated with the raw first-200-character content
snippet (lowered, stripped), the snippet defaulting to the empty string on
empty content.  No clean_text_for_db here. -/
def dup_hash_input (t c : List Char) : List Char :=
  let snippet := if c.isEmpty then ([] : List Char) else c.take 200
  pyStrip (pyLower t) ++ pyStrip (pyLower snippet)

/-- A row of the news table as created by init_database (Agent.py:38-50):
url and content_hash carry UNIQUE constraints.  The content_hash column
stores the md5 of save_hash_input; since md5 is a deterministic function,
the rows are modelled as storing the hash input itself. -/
structure NewsRow where
  title : List Char
  url : List Char
  content : List Char
  summarize : List Char
  source : List Char
  scraped_date : List Char
  content_hash : List Char
  deriving DecidableEq, Repr

/-- SQLite INSERT OR REPLACE against the UNIQUE constraints on url and
content_hash: every existing row conflicting on either column is deleted,
then the new row is inserted. -/
def insert_or_replace (db : List NewsRow) (r : NewsRow) : List NewsRow :=
  r :: db.filter (fun x => decide (x.url ≠ r.url ∧ x.content_hash ≠ r.content_hash))

/-- The row assembled by save_news (Agent.py:163-169) from its arguments:
every field cleaned and bounded, plus the content hash. -/
def saved_row (title url content summarize source date : List Char) : NewsRow :=
  { title := clean_title_field title
    url := clean_url_field url
    content := clean_content_field content
    summarize := clean_summary_field summarize
    source := clean_source_field source
    scraped_date := date
    content_hash := save_hash_input title content }

/-- The effect of one successful save_news call (Agent.py:131-174) on the
store: clean every field, compute the content hash, INSERT OR REPLACE. -/
def save_news (db : List NewsRow) (title url content summarize source date : List Char) :
    List NewsRow :=
  insert_or_replace db (saved_row title url content summarize source date)

/-- Outcome of the fallible part of is_duplicate (connecting and running the
SELECT): either the list of persisted rows, or a failure of any kind. -/
inductive LookupResult where
  | ok : List NewsRow → LookupResult
  | fail : LookupResult

/-- is_duplicate (Agent.py:110-129): build the fingerprint, SELECT a row
with that content_hash, return whether one exists; any exception is caught
and answered with false. -/
def is_duplicate (r : LookupResult) (title content : List Char) : Bool :=
  match r with
  | .fail => false
  | .ok rows =>
    ((rows.filter (fun x => decide (x.content_hash = dup_hash_input title content))).head?).isSome

/-! ## Summary synthesizer (create_crispy_summary, Agent.py:231-294) -/

/-- Python substring membership (the in operator on str): pat occurs
contiguously in s. -/
def isSub (pat : List Char) : List Char → Bool
  | [] => pat.isEmpty
  | c :: s => pat.isPrefixOf (c :: s) || isSub pat s

/-- The companies list of Agent.py:243. -/
def companies : List (List Char) :=
  ["openai".data, "google".data, "microsoft".data, "meta".data, "apple".data,
   "nvidia".data, "amazon".data, "anthropic".data, "deepmind".data, "tesla".data,
   "salesforce".data]

/-- The actions list of Agent.py:244. -/
def actions : List (List Char) :=
  ["announce".data, "launch".data, "release".data, "develop".data, "create".data,
   "introduce".data, "unveil".data, "reveal".data, "debut".data, "rollout".data]

/-- The ai_topics list of Agent.py:245. -/
def ai_topics : List (List Char) :=
  ["ai".data, "artificial intelligence".data, "gpt".data, "chatgpt".data,
   "machine learning".data, "neural".data, "llm".data, "generative ai".data,
   "automation".data, "robotics".data]

/-- The company loop of Agent.py:248-254: first matching company, Python
str.capitalize, with proper-noun overrides for openai and deepmind;
default placeholder when none matches. -/
def summary_company (tl cl : List Char) : List Char :=
  match companies.find? (fun comp => isSub comp tl || isSub comp cl) with
  | none => "A tech company".data
  | some comp =>
    if comp = "openai".data then "OpenAI".data
    else if comp = "deepmind".data then "DeepMind".data
    else pyCapitalize comp

/-- The action loop of Agent.py:256-263: first matching action in the title
only, past tense by suffix rule with three overrides (each override agrees
with the suffix rule for announce, launch, release); default when none
matches. -/
def summary_action (tl : List Char) : List Char :=
  match actions.find? (fun act => isSub act tl) with
  | none => "introduced".data
  | some act =>
    let conj := if act.getLast? = some 'e' then act ++ ['d'] else act ++ "ed".data
    if act = "announce".data then "announced".data
    else if act = "launch".data then "launched".data
    else if act = "release".data then "released".data
    else conj

/-- The topic loop of Agent.py:265-273: first matching topic keyword in
title or content, mapped to a canonical phrase by substring tests on the
keyword itself. -/
def summary_topic (tl cl : List Char) : List Char :=
  match ai_topics.find? (fun top => isSub top tl || isSub top cl) with
  | none => "AI technology".data
  | some top =>
    if isSub "gpt".data top || isSub "chatgpt".data top then "ChatGPT technology".data
    else if isSub "machine learning".data top then "machine learning capabilities".data
    else if isSub "robotics".data top then "robotics technology".data
    else if isSub "automation".data top then "automation solutions".data
    else "AI technology".data

/-- The closing sentence cascade of Agent.py:279-288, tested in fixed
priority order on the title. -/
def summary_closing (tl : List Char) : List Char :=
  if ["breakthrough".data, "revolutionary".data, "game-changing".data].any
      (fun w => isSub w tl) then
    "This breakthrough could transform the tech industry.".data
  else if ["partnership".data, "collaboration".data, "deal".data].any
      (fun w => isSub w tl) then
    "This partnership accelerates AI development progress.".data
  else if ["funding".data, "investment".data, "raises".data].any
      (fun w => isSub w tl) then
    "This investment signals strong market confidence in AI.".data
  else if ["research".data, "study".data, "paper".data].any
      (fun w => isSub w tl) then
    "This research advances our understanding of AI capabilities.".data
  else
    "This development marks continued innovation in artificial intelligence.".data

/-- The summary before the final truncation step (Agent.py:276-288). -/
def summary_raw (title content : List Char) : List Char :=
  let title := if title.isEmpty then "AI News Update".data else title
  let tl := pyLower title
  let cl := pyLower content
  summary_company tl cl ++ " has ".data ++ summary_action tl ++ " new ".data ++
    summary_topic tl cl ++ ". ".data ++ summary_closing tl

/-- create_crispy_summary (Agent.py:231-294).  The return on line 290
parses as: the truncated-plus-ellipsis string when the summary exceeds 200
characters, the summary itself otherwise.  The try/except never fires for
string input, so it is not modelled. -/
def create_crispy_summary (title content : List Char) : List Char :=
  let summary := summary_raw title content
  if summary.length > 200 then summary.take 200 ++ "...".data else summary

/-! ## Trending scorer (calculate_trending_score, AI.py:322-368) -/

/-- The trending_keywords list of AI.py:328-332. -/
def trending_keywords : List (List Char) :=
  ["breaking".data, "just in".data, "latest".data, "new".data, "announces".data,
   "launches".data, "today".data, "this week".data, "now".data, "update".data,
   "development".data, "breakthrough".data, "major".data, "revolutionary".data,
   "game-changing".data]

/-- The ai_companies list of AI.py:335-338. -/
def ai_companies : List (List Char) :=
  ["openai".data, "google".data, "microsoft".data, "meta".data, "apple".data,
   "nvidia".data, "anthropic".data, "deepmind".data, "hugging face".data,
   "stability ai".data]

/-- The hot_topics list of AI.py:341-344. -/
def hot_topics : List (List Char) :=
  ["gpt".data, "chatgpt".data, "claude".data, "gemini".data, "llama".data,
   "copilot".data, "agi".data, "autonomous".data, "robotics".data,
   "ai safety".data, "regulation".data]

/-- The source-reliability bonus of AI.py:361-366, keyed by substring match
on the lowered source name. -/
def source_bonus (source_lower : List Char) : Nat :=
  if isSub "techcrunch".data source_lower then 10
  else if isSub "google news".data source_lower then 15
  else 0

/-- calculate_trending_score (AI.py:322-368): three accumulation loops over
the keyword tables (each list entry adds its weight at most once, on a
substring match against the lowered title) plus the source bonus. -/
def calculate_trending_score (title source : List Char) : Nat :=
  let t := pyLower title
  let s1 := trending_keywords.foldl (fun sc k => if isSub k t then sc + 20 else sc) 0
  let s2 := ai_companies.foldl (fun sc k => if isSub k t then sc + 15 else sc) s1
  let s3 := hot_topics.foldl (fun sc k => if isSub k t then sc + 10 else sc) s2
  s3 + source_bonus (pyLower source)

/-! ## Source fallback orchestrator (search_fresh_ai_news, Agent.py:448-552)

The external Page Content Fetcher is a parameter: fetchListing maps a
source name to the candidate (title, url) pairs its extraction yields (an
extraction failure is caught at Agent.py:403-405 and at Agent.py:488-490
and behaves exactly like an empty listing), dupCheck is the verdict of
db.is_duplicate on a bare title (content unknown at that point), and
fetchContent maps a url to some (content, resolved source) or none for the
exception caught at Agent.py:508-512. -/

/-- A candidate retained by the search loop: title, url, originating source
name (Agent.py:475-478). -/
structure Candidate where
  title : List Char
  url : List Char
  source_name : List Char
  deriving DecidableEq, Repr

/-- The record of one db.save_news invocation (its arguments). -/
structure SaveCall where
  title : List Char
  url : List Char
  content : List Char
  summarize : List Char
  source : List Char
  deriving DecidableEq, Repr

/-- The names of the AI_NEWS_SOURCES table (Agent.py:297-333), in order. -/
def ai_news_source_names : List (List Char) :=
  ["TechCrunch AI".data, "The Verge AI".data, "VentureBeat AI".data, "AI News".data,
   "MIT Tech Review AI".data, "Google AI Search".data, "Bing AI News".data]

/-- The inner article loop of Agent.py:472-483: append each non-duplicate
candidate tagged with the source name, stopping once three have been
collected (the check runs after each article, duplicate or not). -/
def collect_articles (dupCheck : List Char → Bool) (srcName : List Char) :
    List (List Char × List Char) → List Candidate → List Candidate
  | [], found => found
  | a :: rest, found =>
    let found' := if dupCheck a.1 then found else found ++ [⟨a.1, a.2, srcName⟩]
    if found'.length ≥ 3 then found' else collect_articles dupCheck srcName rest found'

/-- The source loop of Agent.py:468-490: probe sources in order, stopping as
soon as at least one fresh article has been found. -/
def probe_sources (fetchListing : List Char → List (List Char × List Char))
    (dupCheck : List Char → Bool) :
    List (List Char) → List Candidate → List Candidate
  | [], found => found
  | s :: rest, found =>
    let found' := collect_articles dupCheck s (fetchListing s) found
    if found'.length ≥ 1 then found' else probe_sources fetchListing dupCheck rest found'

/-- The time-based candidate synthesized at Agent.py:493-500 when no source
produced a fresh article; nowDate is strftime of the current time with
format percent-B space percent-d comma space percent-Y, nowYmd with format
percent-Y percent-m percent-d. -/
def time_based_candidate (nowDate nowYmd : List Char) : Candidate :=
  { title := "AI Technology Update - ".data ++ nowDate
    url := "https://ai-update.com/".data ++ nowYmd
    source_name := "AI Update Service".data }

/-- The fixed content substituted at Agent.py:510-512 when the full-content
fetch fails. -/
def fresh_news_fallback_content (srcName : List Char) : List Char :=
  "Fresh AI news from ".data ++ srcName ++
    (". This article discusses the latest developments in artificial intelligence " ++
      "technology, including new breakthroughs in machine learning, natural language " ++
      "processing, and AI applications across various industries.").data

/-- The save_news invocations performed by one run of search_fresh_ai_news
(Agent.py:448-547) on the path where the browser session itself does not
fail: probe the sources, fall back to the time-based candidate when nothing
fresh was found, fetch full content (with the fixed substitute on failure),
clean and bound the content, summarize, and save exactly once. -/
def search_fresh_saves (fetchListing : List Char → List (List Char × List Char))
    (dupCheck : List Char → Bool)
    (fetchContent : List Char → Option (List Char × List Char))
    (nowDate nowYmd : List Char) : List SaveCall :=
  let found := probe_sources fetchListing dupCheck ai_news_source_names []
  let sel := match found with
    | [] => time_based_candidate nowDate nowYmd
    | a :: _ => a
  let cs := match fetchContent sel.url with
    | some (c, src) => (c, src)
    | none => (fresh_news_fallback_content sel.source_name, sel.source_name)
  let content := (clean_text_for_db cs.1).take 3000
  let summary := create_crispy_summary sel.title content
  [{ title := sel.title, url := sel.url, content := content,
     summarize := summary, source := cs.2 }]

/-! ## Schema repair and save retry (Agent.py:73-108 and 176-198)

save_news catches an OperationalError whose message contains "no such
column" and calls fix_database_and_retry, which recreates the schema and
calls save_news again — with no retry counter.  create_fresh_database
likewise calls itself in its own exception handler.  Each insert attempt is
abstracted by its outcome; the recursion is run on explicit fuel, so that
exhausting every fuel bound witnesses unbounded recursion. -/

/-- Outcome of one INSERT attempt inside save_news (Agent.py:163-185). -/
inductive SaveOutcome where
  | ok : SaveOutcome
  | missingColumn : SaveOutcome
  | otherError : SaveOutcome
  deriving DecidableEq, Repr

/-- Whether an outcome makes save_news return True. -/
def SaveOutcome.succeeded : SaveOutcome → Bool
  | .ok => true
  | _ => false

/-- The save_news / fix_database_and_retry recursion (Agent.py:176-198):
attempt k is the k-th INSERT; a missingColumn outcome triggers
fix_database_and_retry, which re-invokes save_news.  Returns the pair of
the boolean save_news result and the number of insert attempts made, or
none when the recursion outlives the fuel. -/
def save_retry_run (outcome : Nat → SaveOutcome) : Nat → Nat → Option (Bool × Nat)
  | 0, _ => none
  | fuel + 1, k =>
    match outcome k with
    | .ok => some (true, k + 1)
    | .otherError => some (false, k + 1)
    | .missingColumn => save_retry_run outcome fuel (k + 1)

/-- The create_fresh_database self-recursion (Agent.py:73-108): attempt k
fails or succeeds; on failure the except handler calls
create_fresh_database again.  Returns the number of attempts made, or none
when the recursion outlives the fuel. -/
def create_fresh_run (fails : Nat → Bool) : Nat → Nat → Option Nat
  | 0, _ => none
  | fuel + 1, k =>
    if fails k then create_fresh_run fails fuel (k + 1) else some (k + 1)

/-! ## Helper lemmas

First, concrete sanity checks that the embedding behaves as the Python
functions do on sample inputs. -/

example : clean_text_for_db "  hello   world ".data = "hello world".data := by decide
example : clean_text_for_db ['a', '\x00', 'b', '\t', 'c'] = "ab c".data := by decide
example : clean_text_for_db ['a', '…'] = "a...".data := by decide

example :
    create_crispy_summary "OpenAI announces breakthrough AI model".data "".data =
      ("OpenAI has announced new AI technology. " ++
        "This breakthrough could transform the tech industry.").data := by decide

example : calculate_trending_score "Breaking: OpenAI announces GPT breakthrough".data
    "TechCrunch".data = 95 := by decide
example : calculate_trending_score "OpenAI update".data "TechCrunch".data = 45 := by decide

theorem filter_head_isSome {α : Type} (p : α → Bool) (l : List α) :
    ((l.filter p).head?).isSome = l.any p := by
  induction l with
  | nil => rfl
  | cons a t ih =>
    rw [List.filter_cons, List.any_cons]
    by_cases h : p a = true
    · rw [if_pos h, h]
      simp
    · rw [if_neg h, ih]
      have hf : p a = false := by simpa using h
      rw [hf, Bool.false_or]

theorem filter_filter_nil {α : Type} (p q : α → Bool)
    (h : ∀ a, q a = true → p a = false) (l : List α) : (l.filter q).filter p = [] := by
  induction l with
  | nil => rfl
  | cons a t ih =>
    rw [List.filter_cons]
    by_cases hq : q a
    · simp only [hq, if_true, List.filter_cons, h a hq]
      exact ih
    · simp only [hq]
      simpa using ih

theorem save_retry_run_all_missing (o : Nat → SaveOutcome)
    (h : ∀ k, o k = SaveOutcome.missingColumn) :
    ∀ n k, save_retry_run o n k = none := by
  intro n
  induction n with
  | zero => intro k; rfl
  | succ m ih =>
    intro k
    simp only [save_retry_run, h k]
    exact ih (k + 1)

theorem create_fresh_run_all_failing (f : Nat → Bool) (h : ∀ k, f k = true) :
    ∀ n k, create_fresh_run f n k = none := by
  intro n
  induction n with
  | zero => intro k; rfl
  | succ m ih =>
    intro k
    simp only [create_fresh_run, h k, if_true]
    exact ih (k + 1)

theorem save_retry_run_first_non_missing (o : Nat → SaveOutcome) :
    ∀ m n k, (∀ j, j < m → o (k + j) = SaveOutcome.missingColumn) →
      o (k + m) ≠ SaveOutcome.missingColumn → m < n →
      save_retry_run o n k = some ((o (k + m)).succeeded, k + m + 1) := by
  intro m
  induction m with
  | zero =>
    intro n k _ hm hn
    obtain ⟨n', rfl⟩ : ∃ n', n = n' + 1 := ⟨n - 1, by omega⟩
    rw [Nat.add_zero] at hm
    rw [Nat.add_zero]
    cases ho : o k with
    | ok => simp [save_retry_run, ho, SaveOutcome.succeeded]
    | missingColumn => exact absurd ho hm
    | otherError => simp [save_retry_run, ho, SaveOutcome.succeeded]
  | succ m' ih =>
    intro n k hj hm hn
    obtain ⟨n', rfl⟩ : ∃ n', n = n' + 1 := ⟨n - 1, by omega⟩
    have h0 : o k = SaveOutcome.missingColumn := by simpa using hj 0 (Nat.succ_pos m')
    have hj' : ∀ j, j < m' → o (k + 1 + j) = SaveOutcome.missingColumn := by
      intro j hjm
      have h := hj (j + 1) (by omega)
      have heq : k + (j + 1) = k + 1 + j := by omega
      rwa [heq] at h
    have hm' : o (k + 1 + m') ≠ SaveOutcome.missingColumn := by
      have heq : k + 1 + m' = k + (m' + 1) := by omega
      rwa [heq]
    have hrec := ih n' (k + 1) hj' hm' (by omega)
    simp only [save_retry_run, h0]
    rw [hrec]
    have heq : k + 1 + m' = k + (m' + 1) := by omega
    rw [heq]

theorem foldl_keyword_weight (t : List Char) (w : Nat) :
    ∀ (l : List (List Char)) (init : Nat),
      l.foldl (fun sc k => if isSub k t then sc + w else sc) init =
        init + w * l.countP (fun k => isSub k t) := by
  intro l
  induction l with
  | nil => intro init; simp
  | cons a rest ih =>
    intro init
    rw [List.foldl_cons, List.countP_cons, ih]
    by_cases h : isSub a t
    · simp [h, Nat.mul_add]; ring
    · simp [h]

/-! ## Claim C9 -/

/-- C9: is_duplicate is fail-open: whenever the fingerprint lookup fails for
any reason it returns false rather than raising or blocking a save, and on a
successful lookup it returns true exactly when a persisted row with the same
fingerprint is found. -/
theorem c9_is_duplicate_fail_open (title content : List Char) :
    is_duplicate LookupResult.fail title content = false ∧
    ∀ rows : List NewsRow,
      (is_duplicate (LookupResult.ok rows) title content = true ↔
        ∃ x ∈ rows, x.content_hash = dup_hash_input title content) := by
  refine ⟨rfl, fun rows => ?_⟩
  have hred : is_duplicate (LookupResult.ok rows) title content =
      ((rows.filter
        (fun x => decide (x.content_hash = dup_hash_input title content))).head?).isSome := rfl
  rw [hred, filter_head_isSome, List.any_eq_true]
  simp

/-! ## Claim C1 -/

/-- C1 counterexample: the claim says a missing-column save failure is
retried exactly once before giving up, and the store-recreation path is
retried at most once.  Concretely, on an oracle whose first three INSERT
attempts fail with a missing column and whose fourth fails otherwise,
save_news performs four attempts (three retries) before returning False;
and create_fresh_database run against five consecutive failures performs
six attempts (five retries). -/
theorem c1_retry_counterexample :
    save_retry_run
        (fun k => if k < 3 then SaveOutcome.missingColumn else SaveOutcome.otherError)
        10 0 = some (false, 4) ∧
    create_fresh_run (fun k => decide (k < 5)) 10 0 = some 6 := by decide

/-- C1 amended: the repair/retry process is not bounded.  save_news retries
once per consecutive missing-column failure with no retry counter, so on an
oracle that always reports a missing column the recursion outlives every
fuel bound and never gives up; create_fresh_database re-invokes itself on
every failure, likewise unboundedly; and the save recursion terminates
exactly at the first non-missing-column attempt, having made m + 1 insert
attempts when that happens at attempt index m. -/
theorem c1_retry_unbounded :
    (∀ (o : Nat → SaveOutcome) (n : Nat), (∀ k, o k = SaveOutcome.missingColumn) →
      save_retry_run o n 0 = none) ∧
    (∀ (f : Nat → Bool) (n : Nat), (∀ k, f k = true) → create_fresh_run f n 0 = none) ∧
    (∀ (o : Nat → SaveOutcome) (m n : Nat),
      (∀ j, j < m → o j = SaveOutcome.missingColumn) →
      o m ≠ SaveOutcome.missingColumn → m < n →
      save_retry_run o n 0 = some ((o m).succeeded, m + 1)) := by
  refine ⟨fun o n h => save_retry_run_all_missing o h n 0,
    fun f n h => create_fresh_run_all_failing f h n 0,
    fun o m n hj hm hn => ?_⟩
  have := save_retry_run_first_non_missing o m n 0 (fun j hjm => by simpa using hj j hjm)
    (by simpa using hm) hn
  simpa using this

/-- Witness for c1_retry_unbounded at concrete oracles. -/
theorem c1_retry_unbounded_witness :
    save_retry_run (fun _ => SaveOutcome.missingColumn) 7 0 = none ∧
    create_fresh_run (fun _ => true) 7 0 = none ∧
    save_retry_run (fun k => if k < 2 then SaveOutcome.missingColumn else SaveOutcome.ok)
      7 0 = some (true, 3) := by
  refine ⟨c1_retry_unbounded.1 _ 7 (fun _ => rfl),
    c1_retry_unbounded.2.1 _ 7 (fun _ => rfl), ?_⟩
  have := c1_retry_unbounded.2.2
    (fun k => if k < 2 then SaveOutcome.missingColumn else SaveOutcome.ok) 2 7
    (by intro j hj; simp [hj]) (by decide) (by decide)
  simpa using this

/-! ## Claim C8 -/

/-- C8: the trending score is an additive sum over the three fixed keyword
tables plus the source bonus, counting each distinct table entry at most
once per title however often it occurs; and for any common source, the
title containing breaking, announces, breakthrough, openai and gpt scores
strictly higher than the title containing only update and openai. -/
theorem c8_trending_score_additive :
    (∀ title source : List Char,
      calculate_trending_score title source =
        20 * trending_keywords.countP (fun k => isSub k (pyLower title)) +
        15 * ai_companies.countP (fun k => isSub k (pyLower title)) +
        10 * hot_topics.countP (fun k => isSub k (pyLower title)) +
        source_bonus (pyLower source)) ∧
    (∀ source : List Char,
      calculate_trending_score "Breaking: OpenAI announces GPT breakthrough".data source >
        calculate_trending_score "OpenAI update".data source) := by
  have hmain : ∀ title source : List Char,
      calculate_trending_score title source =
        20 * trending_keywords.countP (fun k => isSub k (pyLower title)) +
        15 * ai_companies.countP (fun k => isSub k (pyLower title)) +
        10 * hot_topics.countP (fun k => isSub k (pyLower title)) +
        source_bonus (pyLower source) := by
    intro title source
    simp only [calculate_trending_score]
    rw [foldl_keyword_weight, foldl_keyword_weight, foldl_keyword_weight]
    ring
  refine ⟨hmain, fun source => ?_⟩
  rw [hmain, hmain]
  have h1 : trending_keywords.countP
      (fun k => isSub k (pyLower "Breaking: OpenAI announces GPT breakthrough".data)) = 3 := by
    decide
  have h2 : ai_companies.countP
      (fun k => isSub k (pyLower "Breaking: OpenAI announces GPT breakthrough".data)) = 1 := by
    decide
  have h3 : hot_topics.countP
      (fun k => isSub k (pyLower "Breaking: OpenAI announces GPT breakthrough".data)) = 1 := by
    decide
  have h4 : trending_keywords.countP
      (fun k => isSub k (pyLower "OpenAI update".data)) = 1 := by decide
  have h5 : ai_companies.countP (fun k => isSub k (pyLower "OpenAI update".data)) = 1 := by
    decide
  have h6 : hot_topics.countP (fun k => isSub k (pyLower "OpenAI update".data)) = 0 := by
    decide
  rw [h1, h2, h3, h4, h5, h6]
  omega

/-! ## Claim C5 -/

/-- C5: two save_news calls with the same url and different titles leave
exactly one row for that url in the store, and that row carries every field
of the latest save (insert-or-replace, not append). -/
theorem c5_upsert_same_url (db : List NewsRow)
    (t1 t2 u c1 c2 sm1 sm2 sr1 sr2 d1 d2 : List Char) (hne : t1 ≠ t2) :
    (save_news (save_news db t1 u c1 sm1 sr1 d1) t2 u c2 sm2 sr2 d2).filter
        (fun r => decide (r.url = clean_url_field u)) =
      [saved_row t2 u c2 sm2 sr2 d2] := by
  have hkill : ∀ l : List NewsRow,
      ((l.filter (fun x => decide (x.url ≠ (saved_row t2 u c2 sm2 sr2 d2).url ∧
            x.content_hash ≠ (saved_row t2 u c2 sm2 sr2 d2).content_hash))).filter
          (fun r => decide (r.url = clean_url_field u))) = [] := by
    intro l
    refine filter_filter_nil _ _ (fun a ha => ?_) l
    rw [decide_eq_true_eq] at ha
    rw [decide_eq_false_iff_not]
    exact ha.1
  simp only [save_news, insert_or_replace]
  rw [List.filter_cons,
    if_pos (show decide ((saved_row t2 u c2 sm2 sr2 d2).url = clean_url_field u) = true
      from decide_eq_true rfl),
    hkill]

/-- Witness for c5_upsert_same_url at concrete saves. -/
theorem c5_upsert_same_url_witness :
    (save_news (save_news [] "a".data "u".data "c".data "s".data "w".data "d".data)
        "b".data "u".data "c".data "s".data "w".data "d".data).filter
        (fun r => decide (r.url = clean_url_field "u".data)) =
      [saved_row "b".data "u".data "c".data "s".data "w".data "d".data] :=
  c5_upsert_same_url [] "a".data "b".data "u".data "c".data "c".data "s".data "s".data
    "w".data "w".data "d".data "d".data (by decide)

/-! ## Claim C6 -/

/-- C6: two save_news calls with different urls but equal content hash
(identical normalized title plus content snippet) conflict on the UNIQUE
content_hash column; INSERT OR REPLACE resolves the conflict so that the
first row is gone from the store and exactly one row with that hash — the
second save — persists. -/
theorem c6_hash_conflict_single_row (db : List NewsRow)
    (t1 t2 u1 u2 c1 c2 sm1 sm2 sr1 sr2 d1 d2 : List Char)
    (hurl : clean_url_field u1 ≠ clean_url_field u2)
    (hhash : save_hash_input t1 c1 = save_hash_input t2 c2) :
    saved_row t1 u1 c1 sm1 sr1 d1 ∈ save_news db t1 u1 c1 sm1 sr1 d1 ∧
    saved_row t1 u1 c1 sm1 sr1 d1 ∉
      save_news (save_news db t1 u1 c1 sm1 sr1 d1) t2 u2 c2 sm2 sr2 d2 ∧
    (save_news (save_news db t1 u1 c1 sm1 sr1 d1) t2 u2 c2 sm2 sr2 d2).filter
        (fun r => decide (r.content_hash = save_hash_input t2 c2)) =
      [saved_row t2 u2 c2 sm2 sr2 d2] := by
  refine ⟨?_, ?_, ?_⟩
  · simp only [save_news, insert_or_replace]
    exact List.mem_cons_self _ _
  · intro hmem
    simp only [save_news, insert_or_replace] at hmem
    rcases List.mem_cons.mp hmem with heq | hmem'
    · exact hurl (congrArg NewsRow.url heq)
    · have hp := (List.mem_filter.mp hmem').2
      rw [decide_eq_true_eq] at hp
      exact hp.2 hhash
  · have hkill : ∀ l : List NewsRow,
        ((l.filter (fun x => decide (x.url ≠ (saved_row t2 u2 c2 sm2 sr2 d2).url ∧
              x.content_hash ≠ (saved_row t2 u2 c2 sm2 sr2 d2).content_hash))).filter
            (fun r => decide (r.content_hash = save_hash_input t2 c2))) = [] := by
      intro l
      refine filter_filter_nil _ _ (fun a ha => ?_) l
      rw [decide_eq_true_eq] at ha
      rw [decide_eq_false_iff_not]
      exact ha.2
    simp only [save_news, insert_or_replace]
    rw [List.filter_cons,
      if_pos (show decide
          ((saved_row t2 u2 c2 sm2 sr2 d2).content_hash = save_hash_input t2 c2) = true
        from decide_eq_true rfl),
      hkill]

/-- Witness for c6_hash_conflict_single_row: same title and content, two
different urls. -/
theorem c6_hash_conflict_single_row_witness :
    saved_row "a".data "x".data "c".data "s".data "w".data "d".data ∈
      save_news [] "a".data "x".data "c".data "s".data "w".data "d".data ∧
    saved_row "a".data "x".data "c".data "s".data "w".data "d".data ∉
      save_news (save_news [] "a".data "x".data "c".data "s".data "w".data "d".data)
        "a".data "y".data "c".data "s".data "w".data "d".data ∧
    (save_news (save_news [] "a".data "x".data "c".data "s".data "w".data "d".data)
        "a".data "y".data "c".data "s".data "w".data "d".data).filter
        (fun r => decide (r.content_hash = save_hash_input "a".data "c".data)) =
      [saved_row "a".data "y".data "c".data "s".data "w".data "d".data] :=
  c6_hash_conflict_single_row [] "a".data "a".data "x".data "y".data "c".data "c".data
    "s".data "s".data "w".data "w".data "d".data "d".data (by decide) rfl

/-! ## Claim C4 -/

theorem collect_articles_all_dup (dupCheck : List Char → Bool) (srcName : List Char) :
    ∀ (arts : List (List Char × List Char)) (found : List Candidate),
      (∀ a ∈ arts, dupCheck a.1 = true) →
      collect_articles dupCheck srcName arts found = found := by
  intro arts
  induction arts with
  | nil => intro found _; rfl
  | cons a rest ih =>
    intro found h
    have ha : dupCheck a.1 = true := h a (List.mem_cons_self a rest)
    simp only [collect_articles, ha, if_true]
    split
    · rfl
    · exact ih found (fun b hb => h b (List.mem_cons_of_mem a hb))

theorem probe_sources_all_dup (fetchListing : List Char → List (List Char × List Char))
    (dupCheck : List Char → Bool) :
    ∀ sources : List (List Char),
      (∀ s ∈ sources, ∀ a ∈ fetchListing s, dupCheck a.1 = true) →
      probe_sources fetchListing dupCheck sources [] = [] := by
  intro sources
  induction sources with
  | nil => intro _; rfl
  | cons s rest ih =>
    intro h
    have hc : collect_articles dupCheck s (fetchListing s) [] = [] :=
      collect_articles_all_dup dupCheck s (fetchListing s) []
        (fun a ha => h s (List.mem_cons_self s rest) a ha)
    simp only [probe_sources, hc]
    exact ih (fun t ht a ha => h t (List.mem_cons_of_mem s ht) a ha)

/-- The single save call performed on the fallback path of
search_fresh_ai_news: the time-based candidate carried through the
full-content fetch, cleaning and summarization steps. -/
def fallback_save_call (fetchContent : List Char → Option (List Char × List Char))
    (nowDate nowYmd : List Char) : SaveCall :=
  let sel := time_based_candidate nowDate nowYmd
  let cs := match fetchContent sel.url with
    | some (c, src) => (c, src)
    | none => (fresh_news_fallback_content sel.source_name, sel.source_name)
  let content := (clean_text_for_db cs.1).take 3000
  { title := sel.title, url := sel.url, content := content,
    summarize := create_crispy_summary sel.title content, source := cs.2 }

/-- C4: a run of search_fresh_ai_news in which every configured source
fetch fails (an extraction failure behaves as an empty listing) or yields
only duplicate candidates still performs exactly one save: the synthesized
time-based candidate, whose title embeds the current date string and whose
url embeds the current date stamp, both non-empty. -/
theorem c4_fallback_article (fetchListing : List Char → List (List Char × List Char))
    (dupCheck : List Char → Bool)
    (fetchContent : List Char → Option (List Char × List Char))
    (nowDate nowYmd : List Char)
    (h : ∀ s ∈ ai_news_source_names, ∀ a ∈ fetchListing s, dupCheck a.1 = true) :
    ∃ call : SaveCall,
      search_fresh_saves fetchListing dupCheck fetchContent nowDate nowYmd = [call] ∧
      call.title = "AI Technology Update - ".data ++ nowDate ∧
      call.url = "https://ai-update.com/".data ++ nowYmd ∧
      call.title ≠ [] ∧ call.url ≠ [] := by
  have hp : probe_sources fetchListing dupCheck ai_news_source_names [] = [] :=
    probe_sources_all_dup fetchListing dupCheck ai_news_source_names h
  have hrun : search_fresh_saves fetchListing dupCheck fetchContent nowDate nowYmd =
      [fallback_save_call fetchContent nowDate nowYmd] := by
    simp only [search_fresh_saves, hp]
    rfl
  refine ⟨fallback_save_call fetchContent nowDate nowYmd, hrun, rfl, rfl, ?_, ?_⟩
  · show "AI Technology Update - ".data ++ nowDate ≠ []
    intro hab
    exact absurd (List.append_eq_nil.mp hab).1 (by decide)
  · show "https://ai-update.com/".data ++ nowYmd ≠ []
    intro hab
    exact absurd (List.append_eq_nil.mp hab).1 (by decide)

/-- Witness for c4_fallback_article: every source returns the empty
listing. -/
theorem c4_fallback_article_witness :
    ∃ call : SaveCall,
      search_fresh_saves (fun _ => []) (fun _ => false) (fun _ => none)
          "October 12, 2025".data "20251012".data = [call] ∧
      call.title = "AI Technology Update - ".data ++ "October 12, 2025".data ∧
      call.url = "https://ai-update.com/".data ++ "20251012".data ∧
      call.title ≠ [] ∧ call.url ≠ [] :=
  c4_fallback_article (fun _ => []) (fun _ => false) (fun _ => none)
    "October 12, 2025".data "20251012".data
    (fun s _ a ha => absurd ha (List.not_mem_nil a))

/-! ## Claim C2 -/

theorem summary_company_length (tl cl : List Char) : (summary_company tl cl).length ≤ 14 := by
  unfold summary_company
  cases h : companies.find? (fun comp => isSub comp tl || isSub comp cl) with
  | none => decide
  | some comp =>
    have hm := List.mem_of_find?_eq_some h
    simp only [companies, List.mem_cons, List.mem_nil_iff, or_false] at hm
    rcases hm with rfl | rfl | rfl | rfl | rfl | rfl | rfl | rfl | rfl | rfl | rfl <;> decide

theorem summary_action_length (tl : List Char) : (summary_action tl).length ≤ 10 := by
  unfold summary_action
  cases h : actions.find? (fun act => isSub act tl) with
  | none => decide
  | some act =>
    have hm := List.mem_of_find?_eq_some h
    simp only [actions, List.mem_cons, List.mem_nil_iff, or_false] at hm
    rcases hm with rfl | rfl | rfl | rfl | rfl | rfl | rfl | rfl | rfl | rfl <;> decide

theorem summary_topic_length (tl cl : List Char) : (summary_topic tl cl).length ≤ 29 := by
  unfold summary_topic
  cases h : ai_topics.find? (fun top => isSub top tl || isSub top cl) with
  | none => decide
  | some top =>
    have hm := List.mem_of_find?_eq_some h
    simp only [ai_topics, List.mem_cons, List.mem_nil_iff, or_false] at hm
    rcases hm with rfl | rfl | rfl | rfl | rfl | rfl | rfl | rfl | rfl | rfl <;> decide

theorem summary_closing_length (tl : List Char) : (summary_closing tl).length ≤ 71 := by
  unfold summary_closing
  split_ifs <;> decide

theorem summary_raw_length (title content : List Char) :
    (summary_raw title content).length ≤ 200 := by
  have key : ∀ tl cl : List Char,
      (summary_company tl cl ++ " has ".data ++ summary_action tl ++ " new ".data ++
        summary_topic tl cl ++ ". ".data ++ summary_closing tl).length ≤ 200 := by
    intro tl cl
    simp only [List.length_append, List.length_cons, List.length_nil]
    have h1 := summary_company_length tl cl
    have h2 := summary_action_length tl
    have h3 := summary_topic_length tl cl
    have h4 := summary_closing_length tl
    omega
  exact key _ _

/-- C2: for every title and content, the summary returned by
create_crispy_summary is at most 200 characters long, and whenever the
truncation branch fires (the pre-truncation summary exceeds 200
characters) the result is ellipsis-suffixed.  The pre-truncation summary in
fact never exceeds 200 characters (it is bounded by 136), so the truncation
branch is dead and the bound holds unconditionally. -/
theorem c2_summary_length (title content : List Char) :
    (create_crispy_summary title content).length ≤ 200 ∧
    ((summary_raw title content).length ≤ 200 ∨
      "...".data <:+ create_crispy_summary title content) := by
  have hr := summary_raw_length title content
  constructor
  · simp only [create_crispy_summary]
    rw [if_neg (by omega)]
    exact hr
  · exact Or.inl hr

/-! ## Claim C3 -/

/-- Hash input as claim C3 describes it (a comparison definition written
from the words of the claim): the normalized lowercased stripped title
before the 500-character title bound, plus the lowercased stripped
first-200-character snippet of the normalized content. -/
def hash_input_pre_trunc (t c : List Char) : List Char :=
  pyStrip (pyLower (clean_text_for_db t)) ++
    pyStrip (pyLower ((clean_text_for_db c).take 200))

/-- Hash input as the amended claim describes it: the first 500 characters
of the normalized title, lowercased and stripped, plus the lowercased
stripped first 200 characters of the normalized content; the 5000-character
content bound does not affect the snippet. -/
def hash_input_post_trunc (t c : List Char) : List Char :=
  pyStrip (pyLower ((clean_text_for_db t).take 500)) ++
    pyStrip (pyLower ((clean_text_for_db c).take 200))

set_option maxRecDepth 8000 in
/-- C3 counterexample: at a 501-character title the stored hash input is
not the pre-truncation fingerprint the claim describes — save_news applies
the 500-character title bound (Agent.py:135) before hashing
(Agent.py:141-144), so a title longer than 500 characters hashes as its
truncated, not untruncated, normalization. -/
theorem c3_hash_pretruncation_counterexample :
    save_hash_input (List.replicate 501 'a') ['b'] ≠
      hash_input_pre_trunc (List.replicate 501 'a') ['b'] := by decide

/-- C3 amended: for a non-empty title and a content whose normalization is
non-empty, the hash input is computed from the post-normalization,
post-truncation title (first 500 characters) plus the first 200 characters
of the normalized content, on which the 5000-character content bound has no
effect. -/
theorem c3_hash_post_truncation (t c : List Char) (ht : ¬t.isEmpty = true)
    (hc : ¬(clean_text_for_db c).isEmpty = true) :
    save_hash_input t c = hash_input_post_trunc t c := by
  have hc0 : ¬c.isEmpty = true := by
    intro h
    rw [List.isEmpty_iff] at h
    subst h
    exact hc rfl
  have hsnip : ¬((clean_text_for_db c).take 5000).isEmpty = true := by
    rw [List.isEmpty_iff, List.take_eq_nil_iff]
    rw [List.isEmpty_iff] at hc
    rintro (h5000 | hnil)
    · omega
    · exact hc hnil
  simp only [save_hash_input, hash_input_post_trunc, clean_title_field, clean_content_field]
  rw [if_neg ht, if_neg hc0, if_neg hsnip, List.take_take]
  have hmin : min 200 5000 = 200 := by decide
  rw [hmin]

/-- Witness for c3_hash_post_truncation. -/
theorem c3_hash_post_truncation_witness :
    save_hash_input "a".data "b".data = hash_input_post_trunc "a".data "b".data :=
  c3_hash_post_truncation "a".data "b".data (by decide) (by decide)

/-! ## Claim C7 -/

/-- An input on which clean_text_for_db is not idempotent: the control
character hides the seven-character replacement key of the (mangled)
replacements table on the first pass; the re.sub then removes the control
character, re-creating the key, which the second pass folds away. -/
def c7_failing_input : List Char := ['a', ':', ' ', '"', '\'', '"', '\x01', ',', ' ', 'b']

/-- C7 code bug: the normalizer is not idempotent.  The replacements dict
of Agent.py:218 is mangled (its smart-quote keys collapsed to a plain
double quote and an accidental seven-character key built by triple-quote
tokenization), so a later cleaning stage can create a new occurrence of
that key, which only a second pass folds: normalize(normalize(x)) differs
from normalize(x) at this input, against both the spec and this claim. -/
theorem c7_clean_not_idempotent :
    clean_text_for_db c7_failing_input = ['a', ':', ' ', '"', '\'', '"', ',', ' ', 'b'] ∧
    clean_text_for_db (clean_text_for_db c7_failing_input) = ['a', '\'', 'b'] ∧
    clean_text_for_db (clean_text_for_db c7_failing_input) ≠
      clean_text_for_db c7_failing_input := by decide

/-! ## Claim C10 -/

theorem toNat_ofNat_of_lt {n : Nat} (h : n < 55296) : (Char.ofNat n).toNat = n := by
  have hv : n.isValidChar := Or.inl h
  rw [Char.ofNat, dif_pos hv]
  rfl

theorem isPySpace_pyLowerChar (c : Char) : isPySpace (pyLowerChar c) = isPySpace c := by
  unfold pyLowerChar
  by_cases h : 65 ≤ c.toNat ∧ c.toNat ≤ 90
  · rw [if_pos h]
    have hval : (Char.ofNat (c.toNat + 32)).toNat = c.toNat + 32 :=
      toNat_ofNat_of_lt (by omega)
    have h1 : isPySpace (Char.ofNat (c.toNat + 32)) = false := by
      unfold isPySpace
      rw [decide_eq_false_iff_not, hval]
      omega
    have h2 : isPySpace c = false := by
      unfold isPySpace
      rw [decide_eq_false_iff_not]
      omega
    rw [h1, h2]
  · rw [if_neg h]

theorem dropWhile_head_false {α : Type} (p : α → Bool) :
    ∀ (l : List α) (a : α) (t : List α), l.dropWhile p = a :: t → p a = false := by
  intro l
  induction l with
  | nil => intro a t h; cases h
  | cons b s ih =>
    intro a t h
    rw [List.dropWhile_cons] at h
    by_cases hb : p b = true
    · rw [if_pos hb] at h
      exact ih a t h
    · rw [if_neg hb] at h
      injection h with h1 _
      subst h1
      simpa using hb

theorem dropWhile_fix_of_head {α : Type} (p : α → Bool) (a : α) (t : List α)
    (h : p a = false) : (a :: t).dropWhile p = a :: t := by
  rw [List.dropWhile_cons, if_neg]
  simp [h]

theorem dropWhile_idem {α : Type} (p : α → Bool) (l : List α) :
    (l.dropWhile p).dropWhile p = l.dropWhile p := by
  cases h : l.dropWhile p with
  | nil => rfl
  | cons a t =>
    rw [← h]  -- restore before rewriting again below
    rw [h]
    exact dropWhile_fix_of_head p a t (dropWhile_head_false p l a t h)

theorem pyStrip_idem (s : List Char) : pyStrip (pyStrip s) = pyStrip s := by
  have hAfix : (s.dropWhile isPySpace).dropWhile isPySpace = s.dropWhile isPySpace :=
    dropWhile_idem _ s
  have hBfix : (((s.dropWhile isPySpace).reverse.dropWhile isPySpace).dropWhile isPySpace) =
      (s.dropWhile isPySpace).reverse.dropWhile isPySpace :=
    dropWhile_idem _ (s.dropWhile isPySpace).reverse
  have hBrev : (((s.dropWhile isPySpace).reverse.dropWhile isPySpace).reverse.dropWhile
        isPySpace) =
      ((s.dropWhile isPySpace).reverse.dropWhile isPySpace).reverse := by
    cases hcase : ((s.dropWhile isPySpace).reverse.dropWhile isPySpace).reverse with
    | nil => rfl
    | cons c w =>
      obtain ⟨u, hu⟩ : ((s.dropWhile isPySpace).reverse.dropWhile isPySpace) <:+
          (s.dropWhile isPySpace).reverse := List.dropWhile_suffix _
      have hAeq : s.dropWhile isPySpace =
          ((s.dropWhile isPySpace).reverse.dropWhile isPySpace).reverse ++ u.reverse := by
        have hrev := congrArg List.reverse hu
        rw [List.reverse_append, List.reverse_reverse] at hrev
        exact hrev.symm
      have hpc : isPySpace c = false := by
        apply dropWhile_head_false isPySpace (s.dropWhile isPySpace) c (w ++ u.reverse)
        rw [hAfix, hAeq, hcase]
        rfl
      exact dropWhile_fix_of_head _ c w hpc
  unfold pyStrip
  rw [hBrev, List.reverse_reverse, hBfix]

/-- The output of clean_text_for_db is already stripped. -/
theorem pyStrip_clean (s : List Char) :
    pyStrip (clean_text_for_db s) = clean_text_for_db s := by
  by_cases h : s.isEmpty = true
  · simp only [clean_text_for_db]
    rw [if_pos h]
    rfl
  · simp only [clean_text_for_db]
    rw [if_neg h]
    exact pyStrip_idem _

theorem pyStrip_pyLower (s : List Char) : pyStrip (pyLower s) = pyLower (pyStrip s) := by
  have hpf : (isPySpace ∘ pyLowerChar) = isPySpace := funext isPySpace_pyLowerChar
  unfold pyStrip pyLower
  rw [List.dropWhile_map, hpf, ← List.map_reverse, List.dropWhile_map, hpf,
    ← List.map_reverse]

/-- C10 counterexample: at the one-space title with empty content, the
stored hash input and the is_duplicate fingerprint input agree — both are
the empty string, since save_news cleans the title to the empty string
(and the title default does not fire for a non-empty raw title) while
is_duplicate strips the raw title to the empty string.  They do not
disagree as the claim asserts for every title. -/
theorem c10_empty_content_hash_counterexample :
    save_hash_input [' '] [] = dup_hash_input [' '] [] ∧
    save_hash_input [' '] [] = [] := by decide

/-- C10 amended: for every title that is non-empty, at most 500 characters
long and already in normalized form (a fixed point of clean_text_for_db),
saving with empty content stores a hash input that is the lowercased title
concatenated with itself, while is_duplicate fingerprints the lowercased
title concatenated with the empty string; the two always disagree for such
titles. -/
theorem c10_empty_content_hash_mismatch (t : List Char)
    (hfix : clean_text_for_db t = t) (hne : t ≠ []) (hlen : t.length ≤ 500) :
    save_hash_input t [] = pyLower t ++ pyLower t ∧
    dup_hash_input t [] = pyLower t ∧
    save_hash_input t [] ≠ dup_hash_input t [] := by
  have hne' : ¬t.isEmpty = true := by
    rw [List.isEmpty_iff]
    exact hne
  have hkey : pyStrip (pyLower t) = pyLower t := by
    conv_lhs => rw [← hfix]
    conv_rhs => rw [← hfix]
    rw [pyStrip_pyLower, pyStrip_clean]
  have hct : clean_title_field t = t := by
    simp only [clean_title_field]
    rw [if_neg hne', hfix]
    exact List.take_of_length_le hlen
  have hsave : save_hash_input t [] = pyLower t ++ pyLower t := by
    show pyStrip (pyLower (clean_title_field t)) ++
      pyStrip (pyLower (clean_title_field t)) = pyLower t ++ pyLower t
    rw [hct, hkey]
  have hdup : dup_hash_input t [] = pyLower t := by
    show pyStrip (pyLower t) ++ pyStrip (pyLower []) = pyLower t
    rw [hkey, show pyStrip (pyLower ([] : List Char)) = [] from rfl, List.append_nil]
  refine ⟨hsave, hdup, ?_⟩
  rw [hsave, hdup]
  intro heq
  have hlen2 : (pyLower t ++ pyLower t).length = (pyLower t).length := by rw [heq]
  rw [List.length_append] at hlen2
  have hlt : (pyLower t).length = t.length := by simp [pyLower]
  have ht0 : t.length = 0 := by omega
  exact hne (List.eq_nil_of_length_eq_zero ht0)

/-- Witness for c10_empty_content_hash_mismatch at a normalized title. -/
theorem c10_empty_content_hash_mismatch_witness :
    save_hash_input "abc".data [] = pyLower "abc".data ++ pyLower "abc".data ∧
    dup_hash_input "abc".data [] = pyLower "abc".data ∧
    save_hash_input "abc".data [] ≠ dup_hash_input "abc".data [] :=
  c10_empty_content_hash_mismatch "abc".data (by decide) (by decide) (by decide)
